import Mathlib

/-!
Verification development for the numerical-mechanism subsystem of a
differential-privacy library (Laplace and Gaussian noise mechanisms, their
validated builders, granularity-snapped sampling, privacy-budget handling and
confidence intervals), together with the bounded-algorithm builder layer from
`algorithms/bounded-algorithm.h`.

The implementation header `algorithms/numerical-mechanisms.h` is not part of
the available sources (only its test file `algorithms/numerical-mechanisms_test.cc`
is), so the mechanism and builder definitions below are modelled from the
specification, constrained by the expectations of the test file.  Definitions
taken from `algorithms/bounded-algorithm.h` follow that header directly.

Doubles are modelled by the type `Fp`: NaN, the two infinities, and finite
values carried as exact rationals.  The one floating-point rounding effect the
specification singles out -- a product of two subnormal sensitivities
underflowing to zero -- is modelled explicitly in `fpMul`, which flushes
nonzero products of magnitude below the smallest positive double (2 ^ (-1074))
to zero and overflows products of magnitude at least 2 ^ 1024 to infinity.
All other arithmetic on finite values is exact.
-/

/-- Model of an IEEE-754 binary64 value: NaN, the two infinities, or a finite
value represented by an exact rational. -/
inductive Fp where
  | nan : Fp
  | posInf : Fp
  | negInf : Fp
  | fin : ℚ → Fp
deriving DecidableEq

/-- A value is finite exactly when it is neither NaN nor an infinity. -/
def Fp.isFinite : Fp → Bool
  | .fin _ => true
  | _ => false

/-- A value is finite and strictly positive. -/
def Fp.isPosFin (x : Fp) : Prop :=
  ∃ q : ℚ, x = Fp.fin q ∧ 0 < q

/-- The rational carried by a finite value; 0 for the non-finite values. -/
def Fp.toRat : Fp → ℚ
  | .fin q => q
  | _ => 0

/-- The smallest positive double, 2 ^ (-1074) (the least subnormal). -/
def minPositiveDouble : ℚ := 1 / 2 ^ 1074

/-- Magnitude at and beyond which the double model overflows to infinity. -/
def maxFiniteDouble : ℚ := 2 ^ 1024

/-- Modelled from the spec: double multiplication.  Finite products are exact
except that a nonzero product whose magnitude lies below the smallest positive
double underflows ("flushes") to zero -- the effect the builder validation
guards against -- and a product of magnitude at least 2 ^ 1024 overflows to a
signed infinity.  NaN and infinity combinations follow IEEE-754. -/
def fpMul : Fp → Fp → Fp
  | .nan, _ => .nan
  | _, .nan => .nan
  | .posInf, .posInf => .posInf
  | .posInf, .negInf => .negInf
  | .negInf, .posInf => .negInf
  | .negInf, .negInf => .posInf
  | .posInf, .fin b => if b = 0 then .nan else if 0 < b then .posInf else .negInf
  | .negInf, .fin b => if b = 0 then .nan else if 0 < b then .negInf else .posInf
  | .fin a, .posInf => if a = 0 then .nan else if 0 < a then .posInf else .negInf
  | .fin a, .negInf => if a = 0 then .nan else if 0 < a then .negInf else .posInf
  | .fin a, .fin b =>
      if a * b ≠ 0 ∧ |a * b| < minPositiveDouble then .fin 0
      else if maxFiniteDouble ≤ |a * b| then (if 0 < a * b then .posInf else .negInf)
      else .fin (a * b)

/-- Integer square root by exhaustive search (largest `k` with `k * k ≤ n`);
only ever evaluated on tiny arguments in this development. -/
def isqrtNat (n : ℕ) : ℕ :=
  (List.range (n + 1)).foldl (fun acc k => if k * k ≤ n then k else acc) 0

/-- Number of fractional binary digits kept by the modelled square root. -/
def sqrtPrecBits : ℕ := 537

/-- Rational square root rounded down to `sqrtPrecBits` fractional bits. -/
def ratSqrtDown (q : ℚ) : ℚ :=
  (isqrtNat (⌊q * 2 ^ (2 * sqrtPrecBits)⌋.toNat) : ℚ) / 2 ^ sqrtPrecBits

/-- Modelled from the spec: `std::sqrt` on a double, as used to derive the
Gaussian L2 sensitivity from L0.  The square root of a nonnegative finite
value is a dyadic approximation rounded down to `sqrtPrecBits` fractional
bits; negative finite values and the negative infinity give NaN. -/
def fpSqrt : Fp → Fp
  | .nan => .nan
  | .posInf => .posInf
  | .negInf => .nan
  | .fin q => if q < 0 then .nan else .fin (ratSqrtDown q)

/-!
## Builder model

`algorithms/numerical-mechanisms.h` is not among the available sources, so the
builders are modelled from the specification (section 4.1), whose validation
rules the test file `numerical-mechanisms_test.cc` exercises.  Build failures
are invalid-argument conditions; they are modelled by `Except.error` carrying
the message prefix that the tests match on.
-/

/-- Modelled from the spec: the transient parameter state of a mechanism
builder (`NumericalMechanismBuilder` and its Laplace/Gaussian variants in the
missing `numerical-mechanisms.h`).  Every parameter is optional; setters store
the given double unchanged. -/
structure BuilderState where
  epsilon : Option Fp
  delta : Option Fp
  l0Sensitivity : Option Fp
  l1Sensitivity : Option Fp
  l2Sensitivity : Option Fp
  linfSensitivity : Option Fp
deriving DecidableEq

/-- Modelled from the spec (validation rule 1): epsilon must be set, finite,
and strictly positive, checked in that order; each violation yields the
distinct invalid-argument message the tests match on. -/
def checkEpsilon (st : BuilderState) : Except String Unit :=
  match st.epsilon with
  | none => .error "Epsilon has to be set"
  | some (.fin e) => if e ≤ 0 then .error "Epsilon has to be positive" else .ok ()
  | some _ => .error "Epsilon has to be finite"

/-- Modelled from the spec (validation rule 2, Gaussian only): delta must be
set, finite, and strictly inside the open interval (0,1), checked in that
order. -/
def checkDelta (st : BuilderState) : Except String Unit :=
  match st.delta with
  | none => .error "Delta has to be set"
  | some (.fin d) =>
      if d ≤ 0 ∨ 1 ≤ d then .error "Delta has to be in the interval (0,1)" else .ok ()
  | some _ => .error "Delta has to be finite"

/-- Modelled from the spec (validation rules 3-5, Laplace): a directly set L1
sensitivity must be finite and positive; otherwise, when both L0 and LInf are
set, both must be finite (checked first) and positive, and the derived L1
sensitivity L0 x LInf must itself be finite and positive; otherwise the
sensitivity defaults to 1. -/
def laplaceL1 (st : BuilderState) : Except String ℚ :=
  match st.l1Sensitivity with
  | some (.fin s) =>
      if s ≤ 0 then .error "L1 sensitivity has to be positive" else .ok s
  | some _ => .error "L1 sensitivity has to be finite"
  | none =>
    match st.l0Sensitivity, st.linfSensitivity with
    | some (.fin a), some (.fin b) =>
        if a ≤ 0 then .error "L0 sensitivity has to be positive but is"
        else if b ≤ 0 then .error "LInf sensitivity has to be positive but is"
        else
          match fpMul (Fp.fin a) (Fp.fin b) with
          | .fin d =>
              if d ≤ 0 then .error "The calculated L1 sensitivity has to be positive and finite"
              else .ok d
          | _ => .error "The calculated L1 sensitivity has to be positive and finite"
    | some a, some _ =>
        if ¬ a.isFinite then .error "L0 sensitivity has to be finite"
        else .error "LInf sensitivity has to be finite"
    | _, _ => .ok 1

/-- Modelled from the spec (validation rules 3-5, Gaussian): a directly set L2
sensitivity must be finite and positive; otherwise, when both L0 and LInf are
set, both must be finite (checked first) and positive, and the derived L2
sensitivity sqrt(L0) x LInf must itself be finite and positive -- this is the
guard against the product of two subnormal inputs underflowing to zero;
otherwise the sensitivity defaults to 1. -/
def gaussianL2 (st : BuilderState) : Except String ℚ :=
  match st.l2Sensitivity with
  | some (.fin s) =>
      if s ≤ 0 then .error "L2 sensitivity has to be positive" else .ok s
  | some _ => .error "L2 sensitivity has to be finite"
  | none =>
    match st.l0Sensitivity, st.linfSensitivity with
    | some (.fin a), some (.fin b) =>
        if a ≤ 0 then .error "L0 sensitivity has to be positive but is"
        else if b ≤ 0 then .error "LInf sensitivity has to be positive but is"
        else
          match fpMul (fpSqrt (Fp.fin a)) (Fp.fin b) with
          | .fin d =>
              if d ≤ 0 then .error "The calculated L2 sensitivity has to be positive and finite"
              else .ok d
          | _ => .error "The calculated L2 sensitivity has to be positive and finite"
    | some a, some _ =>
        if ¬ a.isFinite then .error "L0 sensitivity has to be finite"
        else .error "LInf sensitivity has to be finite"
    | _, _ => .ok 1

/-- Parameters of a successfully built Laplace mechanism. -/
structure LaplaceParams where
  epsilon : ℚ
  sensitivity : ℚ
deriving DecidableEq

/-- Parameters of a successfully built Gaussian mechanism. -/
structure GaussianParams where
  epsilon : ℚ
  delta : ℚ
  l2Sensitivity : ℚ
deriving DecidableEq

/-- Modelled from the spec (section 9's "too high to represent a valid
scale" check, exercised by the tests `LaplaceBuilderSensitivityTooHigh` and
`LambdaTooSmall`): the largest Laplace scale sensitivity/epsilon the snapped
sampling can represent.  The exact bound is not recoverable from the
available sources; the model fixes it at 2 ^ 64, which reproduces every
Build outcome the test file pins: success for the small test scales (at most
15) and failure both for the scale 3 x 10 ^ 100 of `LambdaTooSmall` and for
the scale DBL_MAX of `LaplaceBuilderSensitivityTooHigh`. -/
def maxValidScale : ℚ := 2 ^ 64

/-- Modelled from the spec: `LaplaceMechanism::Builder::Build()`.  Epsilon is
validated first, then the L1 sensitivity is resolved (directly, derived from
L0/LInf, or defaulted); a resolved scale sensitivity/epsilon too high to
represent is rejected; on success the validated parameters are transferred
into the mechanism.  No delta is required for Laplace. -/
def laplaceBuild (st : BuilderState) : Except String LaplaceParams :=
  match checkEpsilon st with
  | .error e => .error e
  | .ok _ =>
    match laplaceL1 st with
    | .error e => .error e
    | .ok s =>
        if maxValidScale < s / (st.epsilon.getD (Fp.fin 0)).toRat
        then .error "Sensitivity is too high"
        else .ok ⟨(st.epsilon.getD (Fp.fin 0)).toRat, s⟩

/-- Modelled from the spec: `GaussianMechanism::Builder::Build()`.  Epsilon is
validated first, then delta, then the L2 sensitivity is resolved; on success
the validated parameters are transferred into the mechanism. -/
def gaussianBuild (st : BuilderState) : Except String GaussianParams :=
  match checkEpsilon st with
  | .error e => .error e
  | .ok _ =>
    match checkDelta st with
    | .error e => .error e
    | .ok _ =>
      match gaussianL2 st with
      | .error e => .error e
      | .ok s =>
          .ok ⟨(st.epsilon.getD (Fp.fin 0)).toRat, (st.delta.getD (Fp.fin 0)).toRat, s⟩

/-!
## Mechanism model

Built mechanisms operate on validated, hence finite, parameters, so they are
modelled directly over the rationals.  A distribution object carries its
granularity exponent and a `draw` function standing for one granularity-snapped
integer draw of the secure sampler at a given scale multiplier; the tests
substitute a mock for it.
-/

/-- Modelled from the spec: `internal::LaplaceDistribution`.  `gexp` is the
binary exponent of the power-of-two granularity; `draw mult` is the snapped
integer noise draw (noise = draw x granularity) when sampling at `mult` times
the distribution base scale.  The function abstracts the secure sampler, so a
deterministic mock can stand in for it. -/
structure LaplaceDistribution where
  gexp : ℤ
  draw : ℚ → ℤ

/-- The power-of-two granularity to which draws and values are snapped. -/
def LaplaceDistribution.getGranularity (d : LaplaceDistribution) : ℚ :=
  (2 : ℚ) ^ d.gexp

/-- Modelled from the spec: `Sample(mult)` returns the snapped noise, an exact
integer multiple of the granularity. -/
def LaplaceDistribution.sample (d : LaplaceDistribution) (mult : ℚ) : ℚ :=
  (d.draw mult : ℚ) * d.getGranularity

/-- Modelled from the spec: privacy budgets outside the interval (0,1] are
rejected by clamping into the interval ("values that should be clamped" in the
test file): budgets above 1 become 1; non-positive budgets become the smallest
positive double. -/
def clampBudget (b : ℚ) : ℚ :=
  if b ≤ 0 then minPositiveDouble else if 1 < b then 1 else b

/-- The scale multiplier `1 / privacy_budget` handed to the distribution by
`AddNoise`, after budget clamping. -/
def sampleMultiplier (b : ℚ) : ℚ :=
  1 / clampBudget b

/-- Rounds `v` to the nearest integer multiple of the granularity `g`. -/
def roundToNearestMultiple (v g : ℚ) : ℚ :=
  ((round (v / g) : ℤ) : ℚ) * g

/-- Modelled from the spec: `LaplaceMechanism`.  State: epsilon, sensitivity,
and the owned distribution. -/
structure LaplaceMechanism where
  epsilon : ℚ
  sensitivity : ℚ
  distro : LaplaceDistribution

/-- The Laplace scale parameter b = sensitivity / epsilon. -/
def LaplaceMechanism.getDiversity (m : LaplaceMechanism) : ℚ :=
  m.sensitivity / m.epsilon

/-- Modelled from the spec: `LaplaceMechanism::AddNoise(value, privacy_budget)`.
The budget is clamped into (0,1]; if the sensitivity is 0 the value is
returned unchanged; otherwise the value is snapped to the distribution
granularity and one sample drawn at scale multiplier `1 / budget` (that is, at
scale `diversity / budget`) is added. -/
def LaplaceMechanism.addNoise (m : LaplaceMechanism) (value : ℚ) (budget : ℚ) : ℚ :=
  if m.sensitivity = 0 then value
  else
    roundToNearestMultiple value m.distro.getGranularity +
      m.distro.sample (sampleMultiplier budget)

/-- The effective Laplace scale from which `addNoise` draws at a given budget:
the sample multiplier times the mechanism diversity. -/
def LaplaceMechanism.effectiveScale (m : LaplaceMechanism) (budget : ℚ) : ℚ :=
  sampleMultiplier budget * m.getDiversity

/-- Modelled from the spec: the Gaussian noise distribution, abstracted the
same way as `LaplaceDistribution`; `draw` receives the clamped privacy budget
(the distribution internally scales the cached stddev by `1 / sqrt budget`). -/
structure GaussianDistribution where
  gexp : ℤ
  draw : ℚ → ℤ

/-- The power-of-two granularity of the Gaussian distribution. -/
def GaussianDistribution.getGranularity (d : GaussianDistribution) : ℚ :=
  (2 : ℚ) ^ d.gexp

/-- Modelled from the spec: `GaussianMechanism`.  State: epsilon, delta, L2
sensitivity, and the owned distribution. -/
structure GaussianMechanism where
  epsilon : ℚ
  delta : ℚ
  l2Sensitivity : ℚ
  distro : GaussianDistribution

/-- Modelled from the spec: `GaussianMechanism::AddNoise(value, privacy_budget)`.
The budget is clamped into (0,1] exactly as for Laplace; the value is snapped
to the granularity and one snapped Gaussian draw at the clamped budget is
added. -/
def GaussianMechanism.addNoise (m : GaussianMechanism) (value : ℚ) (budget : ℚ) : ℚ :=
  roundToNearestMultiple value m.distro.getGranularity +
    (m.distro.draw (clampBudget budget) : ℚ) * m.distro.getGranularity

/-- The confidence-interval value object: lower bound, upper bound, confidence
level. -/
structure ConfidenceInterval where
  lowerBound : ℚ
  upperBound : ℚ
  confidenceLevel : ℚ
deriving DecidableEq

/-- Modelled from the spec:
`LaplaceMechanism::NoiseConfidenceInterval(confidence_level, privacy_budget, result)`.
Both the confidence level and the budget must lie in (0,1], else the
invalid-argument messages the tests match on are returned.  The bounds are the
Laplace closed form, symmetric around `result`:
lower = result + ln(1-level)/epsilon/budget and
upper = result - ln(1-level)/epsilon/budget.  The natural logarithm
(`std::log`, an external math-library routine) is passed in as `mathLog`. -/
def LaplaceMechanism.noiseConfidenceInterval (m : LaplaceMechanism) (mathLog : ℚ → ℚ)
    (level budget result : ℚ) : Except String ConfidenceInterval :=
  if level ≤ 0 ∨ 1 < level then .error "Confidence level has to be in the interval (0,1]"
  else if budget ≤ 0 ∨ 1 < budget then .error "privacy_budget has to be in the interval (0,1]"
  else
    .ok ⟨result + mathLog (1 - level) / m.epsilon / budget,
         result - mathLog (1 - level) / m.epsilon / budget,
         level⟩

/-- Floating-point style remainder on the rationals: `x` minus the largest
integer multiple of `g` not exceeding `x`; it is 0 exactly on the integer
multiples of `g`. -/
def qfmod (x g : ℚ) : ℚ :=
  x - g * (⌊x / g⌋ : ℤ)

/-!
## Bounded-algorithm builder (from `algorithms/bounded-algorithm.h`)

`BoundedAlgorithmBuilder` is a template over the bound type `T`; the virtual
child step `BuildBoundedAlgorithm` is modelled as a suspended computation
passed to `buildAlgorithm`, so that its non-invocation is expressible.
-/

/-- The bound state of `BoundedAlgorithmBuilder`: the two optional manual
bounds (`lower_`, `upper_`). -/
structure BoundedBuilder (T : Type) where
  lower : Option T
  upper : Option T

/-- `SetLower`: stores the manual lower bound. -/
def BoundedBuilder.setLower {T : Type} (b : BoundedBuilder T) (lo : T) : BoundedBuilder T :=
  { b with lower := some lo }

/-- `SetUpper`: stores the manual upper bound. -/
def BoundedBuilder.setUpper {T : Type} (b : BoundedBuilder T) (hi : T) : BoundedBuilder T :=
  { b with upper := some hi }

/-- `BoundsAreSet`: both bounds have a value. -/
def BoundedBuilder.boundsAreSet {T : Type} (b : BoundedBuilder T) : Bool :=
  b.lower.isSome && b.upper.isSome

/-- `CheckBoundsOrder`: when both bounds are set and lower > upper, the
invalid-argument error with the exact message of the source; otherwise OK. -/
def checkBoundsOrder {T : Type} [LinearOrder T] (b : BoundedBuilder T) :
    Except String Unit :=
  match b.lower, b.upper with
  | some lo, some hi =>
      if hi < lo then .error "Lower bound cannot be greater than upper bound."
      else .ok ()
  | _, _ => .ok ()

/-- `BuildAlgorithm` (the `final` override): first `CheckBoundsOrder`, and
only on success the child `BuildBoundedAlgorithm` step, supplied here as the
suspended computation `buildBounded`. -/
def buildAlgorithm {T A : Type} [LinearOrder T] (b : BoundedBuilder T)
    (buildBounded : Unit → Except String A) : Except String A :=
  match checkBoundsOrder b with
  | .error e => .error e
  | .ok _ => buildBounded ()

/-!
## Helper lemmas
-/

@[simp]
lemma Fp.isPosFin_fin (q : ℚ) : (Fp.fin q).isPosFin ↔ 0 < q := by
  simp [Fp.isPosFin]

@[simp]
lemma Fp.not_isPosFin_nan : ¬ Fp.nan.isPosFin := by
  simp [Fp.isPosFin]

@[simp]
lemma Fp.not_isPosFin_posInf : ¬ Fp.posInf.isPosFin := by
  simp [Fp.isPosFin]

@[simp]
lemma Fp.not_isPosFin_negInf : ¬ Fp.negInf.isPosFin := by
  simp [Fp.isPosFin]

lemma minPositiveDouble_pos : 0 < minPositiveDouble := by
  unfold minPositiveDouble
  positivity

lemma clampBudget_pos (b : ℚ) : 0 < clampBudget b := by
  unfold clampBudget
  split_ifs with h1 h2
  · exact minPositiveDouble_pos
  · norm_num
  · exact not_le.mp h1

lemma clampBudget_le_one (b : ℚ) : clampBudget b ≤ 1 := by
  unfold clampBudget
  split_ifs with h1 h2
  · unfold minPositiveDouble
    rw [div_le_one (by positivity)]
    exact one_le_pow₀ (by norm_num)
  · exact le_refl 1
  · exact not_lt.mp h2

lemma clampBudget_eq_self (b : ℚ) (h1 : 0 < b) (h2 : b ≤ 1) : clampBudget b = b := by
  unfold clampBudget
  rw [if_neg (not_le.mpr h1), if_neg (not_lt.mpr h2)]

lemma clampBudget_idem (b : ℚ) : clampBudget (clampBudget b) = clampBudget b :=
  clampBudget_eq_self _ (clampBudget_pos b) (clampBudget_le_one b)

lemma LaplaceDistribution.getGranularity_pos (d : LaplaceDistribution) :
    0 < d.getGranularity := by
  unfold LaplaceDistribution.getGranularity
  positivity

lemma qfmod_intCast_mul (n : ℤ) (g : ℚ) (hg : g ≠ 0) : qfmod ((n : ℚ) * g) g = 0 := by
  unfold qfmod
  rw [mul_div_cancel_right₀ _ hg, Int.floor_intCast]
  ring

/-- A concrete stand-in for the mock distribution of the tests: granularity
2 ^ (-40), every draw returning the integer 10. -/
def mockLaplaceDistribution : LaplaceDistribution :=
  ⟨-40, fun _ => 10⟩

/-- A concrete Gaussian distribution stand-in with granularity 2 ^ (-40). -/
def mockGaussianDistribution : GaussianDistribution :=
  ⟨-40, fun _ => 7⟩

/-!
## Claims
-/

/-- C2: for every correctly built Laplace mechanism (positive sensitivity),
every input value and every valid budget, `addNoise` returns an exact integer
multiple of the distribution granularity: the result modulo `getGranularity`
is exactly 0, because both the snapped input value and the snapped noise draw
are integer multiples of the same power-of-two granularity. -/
theorem laplace_addNoise_granularity_multiple (m : LaplaceMechanism)
    (value budget : ℚ) (hs : 0 < m.sensitivity) (hb1 : 0 < budget) (hb2 : budget ≤ 1) :
    qfmod (m.addNoise value budget) m.distro.getGranularity = 0 := by
  have hg : m.distro.getGranularity ≠ 0 :=
    ne_of_gt m.distro.getGranularity_pos
  rw [LaplaceMechanism.addNoise, if_neg (ne_of_gt hs)]
  rw [LaplaceDistribution.sample, roundToNearestMultiple]
  have hsum :
      ((round (value / m.distro.getGranularity) : ℤ) : ℚ) * m.distro.getGranularity +
        ((m.distro.draw (sampleMultiplier budget) : ℤ) : ℚ) * m.distro.getGranularity =
      (((round (value / m.distro.getGranularity) +
          m.distro.draw (sampleMultiplier budget) : ℤ)) : ℚ) * m.distro.getGranularity := by
    push_cast
    ring
  rw [hsum, qfmod_intCast_mul _ _ hg]

/-- Witness for C2 at the mock distribution, value 12.3, budget 1. -/
theorem laplace_addNoise_granularity_multiple_witness :
    qfmod (LaplaceMechanism.addNoise ⟨1, 1, mockLaplaceDistribution⟩ 12.3 1)
      (LaplaceDistribution.getGranularity mockLaplaceDistribution) = 0 :=
  laplace_addNoise_granularity_multiple ⟨1, 1, mockLaplaceDistribution⟩ 12.3 1
    one_pos one_pos (le_refl 1)

/-- C6: a Laplace mechanism constructed with sensitivity 0 adds no noise at
all: `addNoise` returns the input value unchanged for every value and budget. -/
theorem laplace_addNoise_zero_sensitivity_id (m : LaplaceMechanism)
    (value budget : ℚ) (h : m.sensitivity = 0) :
    m.addNoise value budget = value := by
  simp [LaplaceMechanism.addNoise, h]

/-- Witness for C6: the example of the test, `AddNoise(12.3) = 12.3` on a
mechanism with epsilon 1 and sensitivity 0. -/
theorem laplace_addNoise_zero_sensitivity_id_witness :
    LaplaceMechanism.addNoise ⟨1, 0, mockLaplaceDistribution⟩ 12.3 1 = 12.3 :=
  laplace_addNoise_zero_sensitivity_id ⟨1, 0, mockLaplaceDistribution⟩ 12.3 1 rfl

/-- C8: for every valid epsilon and sensitivity, `getDiversity` is exactly
sensitivity / epsilon, with the three concrete instances of the test:
(epsilon 1, sensitivity 1) gives 1, (2, 1) gives 0.5, and (2, 3) gives 1.5. -/
theorem laplace_getDiversity_sensitivity_div_epsilon (e s : ℚ)
    (d : LaplaceDistribution) (he : 0 < e) (hs : 0 < s) :
    (LaplaceMechanism.mk e s d).getDiversity = s / e ∧
    (LaplaceMechanism.mk 1 1 d).getDiversity = 1 ∧
    (LaplaceMechanism.mk 2 1 d).getDiversity = 1 / 2 ∧
    (LaplaceMechanism.mk 2 3 d).getDiversity = 3 / 2 := by
  refine ⟨rfl, ?_, ?_, ?_⟩ <;> norm_num [LaplaceMechanism.getDiversity]

/-- Witness for C8 at epsilon 1, sensitivity 1. -/
theorem laplace_getDiversity_sensitivity_div_epsilon_witness :
    (LaplaceMechanism.mk 1 1 mockLaplaceDistribution).getDiversity = 1 / 1 ∧
    (LaplaceMechanism.mk 1 1 mockLaplaceDistribution).getDiversity = 1 ∧
    (LaplaceMechanism.mk 2 1 mockLaplaceDistribution).getDiversity = 1 / 2 ∧
    (LaplaceMechanism.mk 2 3 mockLaplaceDistribution).getDiversity = 3 / 2 :=
  laplace_getDiversity_sensitivity_div_epsilon 1 1 mockLaplaceDistribution one_pos one_pos

/-- C9: for every mechanism (Laplace or Gaussian), `addNoise` rejects a
privacy budget outside the interval (0,1] by clamping it into the interval:
the clamped budget is valid but differs from the supplied one, the call
computes exactly what the call at the clamped budget computes (so it does not
proceed as a normal noised computation at the supplied budget), and the
example budget 2 is clamped to 1. -/
theorem addNoise_rejects_budget_outside_unit_interval (mL : LaplaceMechanism)
    (mG : GaussianMechanism) (value b : ℚ) (hout : b ≤ 0 ∨ 1 < b) :
    (0 < clampBudget b ∧ clampBudget b ≤ 1 ∧ clampBudget b ≠ b) ∧
    mL.addNoise value b = mL.addNoise value (clampBudget b) ∧
    mG.addNoise value b = mG.addNoise value (clampBudget b) ∧
    clampBudget 2 = 1 := by
  refine ⟨⟨clampBudget_pos b, clampBudget_le_one b, ?_⟩, ?_, ?_, ?_⟩
  · rcases hout with h | h
    · exact ne_of_gt (lt_of_le_of_lt h (clampBudget_pos b))
    · have : clampBudget b = 1 := by
        unfold clampBudget
        rw [if_neg (not_le.mpr (lt_trans one_pos h)), if_pos h]
      rw [this]
      exact ne_of_lt h
  · rw [LaplaceMechanism.addNoise, LaplaceMechanism.addNoise]
    rw [sampleMultiplier, sampleMultiplier, clampBudget_idem]
  · rw [GaussianMechanism.addNoise, GaussianMechanism.addNoise, clampBudget_idem]
  · unfold clampBudget
    norm_num

/-- Witness for C9 at budget 2. -/
theorem addNoise_rejects_budget_outside_unit_interval_witness :
    (0 < clampBudget 2 ∧ clampBudget 2 ≤ 1 ∧ clampBudget 2 ≠ 2) ∧
    LaplaceMechanism.addNoise ⟨1, 1, mockLaplaceDistribution⟩ 0 2 =
      LaplaceMechanism.addNoise ⟨1, 1, mockLaplaceDistribution⟩ 0 (clampBudget 2) ∧
    GaussianMechanism.addNoise ⟨1, 1/2, 1, mockGaussianDistribution⟩ 0 2 =
      GaussianMechanism.addNoise ⟨1, 1/2, 1, mockGaussianDistribution⟩ 0 (clampBudget 2) ∧
    clampBudget 2 = 1 :=
  addNoise_rejects_budget_outside_unit_interval ⟨1, 1, mockLaplaceDistribution⟩
    ⟨1, 1/2, 1, mockGaussianDistribution⟩ 0 2 (Or.inr one_lt_two)

/-- C10: from `bounded-algorithm.h`: when both bounds are set and
lower > upper, `BuildAlgorithm` returns the invalid-argument error
"Lower bound cannot be greater than upper bound." and never invokes the child
`BuildBoundedAlgorithm` step (the result is the same for any two child
computations); when lower <= upper, or either bound is unset, the order check
passes and building proceeds with the child step. -/
theorem bounded_builder_bounds_order_check {T : Type} [LinearOrder T] {A : Type}
    (lo hi : T) (b₀ : BoundedBuilder T) (child child₂ : Unit → Except String A) :
    (hi < lo →
      buildAlgorithm ((b₀.setLower lo).setUpper hi) child =
        .error "Lower bound cannot be greater than upper bound." ∧
      buildAlgorithm ((b₀.setLower lo).setUpper hi) child =
        buildAlgorithm ((b₀.setLower lo).setUpper hi) child₂) ∧
    (lo ≤ hi →
      buildAlgorithm ((b₀.setLower lo).setUpper hi) child = child ()) ∧
    (∀ u : Option T, buildAlgorithm ⟨none, u⟩ child = child ()) ∧
    (∀ l : Option T, buildAlgorithm ⟨l, none⟩ child = child ()) := by
  refine ⟨?_, ?_, ?_, ?_⟩
  · intro h
    constructor <;>
      simp [buildAlgorithm, checkBoundsOrder, BoundedBuilder.setLower,
        BoundedBuilder.setUpper, h]
  · intro h
    simp [buildAlgorithm, checkBoundsOrder, BoundedBuilder.setLower,
      BoundedBuilder.setUpper, not_lt.mpr h]
  · intro u
    cases u <;> simp [buildAlgorithm, checkBoundsOrder]
  · intro l
    cases l <;> simp [buildAlgorithm, checkBoundsOrder]

/-- Witness for C10 over the integers with lower 5, upper 3. -/
theorem bounded_builder_bounds_order_check_witness :
    buildAlgorithm ((BoundedBuilder.setUpper
        (BoundedBuilder.setLower ⟨none, none⟩ (5 : ℤ)) 3))
      (fun _ => Except.ok ()) =
      Except.error "Lower bound cannot be greater than upper bound." :=
  ((bounded_builder_bounds_order_check (5 : ℤ) 3 ⟨none, none⟩
      (fun _ => Except.ok ()) (fun _ => Except.ok ())).1 (by norm_num)).1

/-- C7: `addNoise` draws its Laplace sample at scale diversity / budget for
every budget in (0,1]: the effective scale equals diversity / budget, it
strictly increases as the budget shrinks, the three budgets 1, 0.5, 0.25 of
the test give scales diversity / 1, diversity / 0.5, diversity / 0.25, and the
sample handed to the distribution is drawn at multiplier 1 / budget. -/
theorem laplace_addNoise_budget_scale (m : LaplaceMechanism) :
    (∀ b : ℚ, 0 < b → b ≤ 1 → m.effectiveScale b = m.getDiversity / b) ∧
    (0 < m.getDiversity → ∀ b₁ b₂ : ℚ, 0 < b₁ → b₁ < b₂ → b₂ ≤ 1 →
      m.effectiveScale b₂ < m.effectiveScale b₁) ∧
    (m.effectiveScale 1 = m.getDiversity / 1 ∧
      m.effectiveScale (1 / 2) = m.getDiversity / (1 / 2) ∧
      m.effectiveScale (1 / 4) = m.getDiversity / (1 / 4)) ∧
    (m.sensitivity ≠ 0 → ∀ (value b : ℚ), 0 < b → b ≤ 1 →
      m.addNoise value b =
        roundToNearestMultiple value m.distro.getGranularity +
          m.distro.sample (1 / b)) := by
  have hscale : ∀ b : ℚ, 0 < b → b ≤ 1 → m.effectiveScale b = m.getDiversity / b := by
    intro b h1 h2
    rw [LaplaceMechanism.effectiveScale, sampleMultiplier, clampBudget_eq_self b h1 h2,
      one_div_mul_eq_div]
  refine ⟨hscale, ?_, ⟨hscale 1 one_pos (le_refl 1), hscale (1 / 2) (by norm_num) (by norm_num),
    hscale (1 / 4) (by norm_num) (by norm_num)⟩, ?_⟩
  · intro hdiv b₁ b₂ hb₁ hlt hb₂
    rw [hscale b₁ hb₁ (le_of_lt (lt_of_lt_of_le hlt hb₂)), hscale b₂ (lt_trans hb₁ hlt) hb₂]
    exact div_lt_div_of_pos_left hdiv hb₁ hlt
  · intro hs value b h1 h2
    rw [LaplaceMechanism.addNoise, if_neg hs, sampleMultiplier, clampBudget_eq_self b h1 h2]

/-- Witness for C7 at the mechanism with epsilon 1 and sensitivity 1:
budget 1/2 yields effective scale diversity / (1/2), and shrinking the budget
from 1/2 to 1/4 strictly increases the scale. -/
theorem laplace_addNoise_budget_scale_witness :
    LaplaceMechanism.effectiveScale ⟨1, 1, mockLaplaceDistribution⟩ (1 / 2) =
      LaplaceMechanism.getDiversity ⟨1, 1, mockLaplaceDistribution⟩ / (1 / 2) ∧
    LaplaceMechanism.effectiveScale ⟨1, 1, mockLaplaceDistribution⟩ (1 / 2) <
      LaplaceMechanism.effectiveScale ⟨1, 1, mockLaplaceDistribution⟩ (1 / 4) :=
  ⟨(laplace_addNoise_budget_scale ⟨1, 1, mockLaplaceDistribution⟩).1 (1 / 2)
      (by norm_num) (by norm_num),
    (laplace_addNoise_budget_scale ⟨1, 1, mockLaplaceDistribution⟩).2.1
      (by norm_num [LaplaceMechanism.getDiversity]) (1 / 4) (1 / 2)
      (by norm_num) (by norm_num) (by norm_num)⟩

/-- C3: for every Laplace mechanism, logarithm routine, and confidence level
and budget in (0,1], `noiseConfidenceInterval` succeeds with the closed-form
symmetric bounds lower = result + ln(1-level)/epsilon/budget and
upper = result - ln(1-level)/epsilon/budget at the requested level; for
epsilon 0.5, sensitivity 1, level 0.95, budget 0.5 the bounds around 0 are
ln(0.05)/0.5/0.5 and its negation, and supplying result 19.3 shifts both
bounds by +19.3. -/
theorem laplace_noise_confidence_interval_closed_form (m : LaplaceMechanism)
    (mathLog : ℚ → ℚ) (level budget result : ℚ)
    (hl1 : 0 < level) (hl2 : level ≤ 1) (hb1 : 0 < budget) (hb2 : budget ≤ 1) :
    m.noiseConfidenceInterval mathLog level budget result =
      .ok ⟨result + mathLog (1 - level) / m.epsilon / budget,
           result - mathLog (1 - level) / m.epsilon / budget, level⟩ ∧
    (∀ d : LaplaceDistribution,
      (LaplaceMechanism.mk (1 / 2) 1 d).noiseConfidenceInterval mathLog
          (19 / 20) (1 / 2) 0 =
        .ok ⟨mathLog (1 / 20) / (1 / 2) / (1 / 2),
             -(mathLog (1 / 20) / (1 / 2) / (1 / 2)), 19 / 20⟩) ∧
    (∀ d : LaplaceDistribution,
      (LaplaceMechanism.mk (1 / 2) 1 d).noiseConfidenceInterval mathLog
          (19 / 20) (1 / 2) (193 / 10) =
        .ok ⟨193 / 10 + mathLog (1 / 20) / (1 / 2) / (1 / 2),
             193 / 10 - mathLog (1 / 20) / (1 / 2) / (1 / 2), 19 / 20⟩) := by
  have key : ∀ (mm : LaplaceMechanism) (lv bu re : ℚ),
      0 < lv → lv ≤ 1 → 0 < bu → bu ≤ 1 →
      mm.noiseConfidenceInterval mathLog lv bu re =
        .ok ⟨re + mathLog (1 - lv) / mm.epsilon / bu,
             re - mathLog (1 - lv) / mm.epsilon / bu, lv⟩ := by
    intro mm lv bu re h1 h2 h3 h4
    rw [LaplaceMechanism.noiseConfidenceInterval,
      if_neg (by rw [not_or, not_le, not_lt]; exact ⟨h1, h2⟩),
      if_neg (by rw [not_or, not_le, not_lt]; exact ⟨h3, h4⟩)]
  refine ⟨key m level budget result hl1 hl2 hb1 hb2, ?_, ?_⟩
  · intro d
    rw [key _ _ _ _ (by norm_num) (by norm_num) (by norm_num) (by norm_num)]
    norm_num
  · intro d
    rw [key _ _ _ _ (by norm_num) (by norm_num) (by norm_num) (by norm_num)]
    norm_num

/-- Witness for C3 with the identity function standing in for the logarithm
routine, at epsilon 1/2, sensitivity 1, level 19/20, budget 1/2, result 0. -/
theorem laplace_noise_confidence_interval_closed_form_witness :
    LaplaceMechanism.noiseConfidenceInterval ⟨1 / 2, 1, mockLaplaceDistribution⟩ id
        (19 / 20) (1 / 2) 0 =
      Except.ok ⟨0 + id ((1 : ℚ) - 19 / 20) / (1 / 2) / (1 / 2),
                 0 - id ((1 : ℚ) - 19 / 20) / (1 / 2) / (1 / 2), 19 / 20⟩ :=
  (laplace_noise_confidence_interval_closed_form ⟨1 / 2, 1, mockLaplaceDistribution⟩ id
    (19 / 20) (1 / 2) 0 (by norm_num) (by norm_num) (by norm_num) (by norm_num)).1

/-- C4: for both builders, `Build()` fails with an invalid-argument error when
epsilon is unset ("Epsilon has to be set"), finite but not strictly positive
("Epsilon has to be positive"), or NaN or infinite ("Epsilon has to be
finite"); in each case an error -- and hence no mechanism -- is returned. -/
theorem build_epsilon_validation (st : BuilderState) :
    (st.epsilon = none →
      laplaceBuild st = .error "Epsilon has to be set" ∧
      gaussianBuild st = .error "Epsilon has to be set") ∧
    (∀ e : ℚ, st.epsilon = some (Fp.fin e) → e ≤ 0 →
      laplaceBuild st = .error "Epsilon has to be positive" ∧
      gaussianBuild st = .error "Epsilon has to be positive") ∧
    ((st.epsilon = some Fp.nan ∨ st.epsilon = some Fp.posInf ∨
        st.epsilon = some Fp.negInf) →
      laplaceBuild st = .error "Epsilon has to be finite" ∧
      gaussianBuild st = .error "Epsilon has to be finite") := by
  refine ⟨?_, ?_, ?_⟩
  · intro h
    constructor <;> simp [laplaceBuild, gaussianBuild, checkEpsilon, h]
  · intro e he hle
    constructor <;> simp [laplaceBuild, gaussianBuild, checkEpsilon, he, hle]
  · rintro (h | h | h) <;> constructor <;>
      simp [laplaceBuild, gaussianBuild, checkEpsilon, h]

/-- Witness for C4 at epsilon -1 (set, finite, not positive). -/
theorem build_epsilon_validation_witness :
    laplaceBuild ⟨some (Fp.fin (-1)), none, none, some (Fp.fin 1), none, none⟩ =
      Except.error "Epsilon has to be positive" ∧
    gaussianBuild ⟨some (Fp.fin (-1)), none, none, some (Fp.fin 1), none, none⟩ =
      Except.error "Epsilon has to be positive" :=
  (build_epsilon_validation _).2.1 (-1) rfl (by norm_num)

/-- The model reproduces the Build failure of the test `LambdaTooSmall`:
epsilon 10 ^ (-100) with L1 sensitivity 3 gives a scale of 3 x 10 ^ 100,
which the scale-representability check rejects. -/
lemma laplaceBuild_rejects_lambda_too_small :
    laplaceBuild ⟨some (Fp.fin (1 / 10 ^ 100)), none, none, some (Fp.fin 3),
        none, none⟩ =
      .error "Sensitivity is too high" := by
  norm_num [laplaceBuild, checkEpsilon, laplaceL1, Fp.toRat, maxValidScale]

/-- The model reproduces the Build failure of the test
`LaplaceBuilderSensitivityTooHigh`: epsilon 1 with L1 sensitivity
DBL_MAX = (2 ^ 53 - 1) x 2 ^ 971 gives a scale the representability check
rejects. -/
lemma laplaceBuild_rejects_sensitivity_too_high :
    laplaceBuild ⟨some (Fp.fin 1), none, none,
        some (Fp.fin ((2 ^ 53 - 1) * 2 ^ 971)), none, none⟩ =
      .error "Sensitivity is too high" := by
  norm_num [laplaceBuild, checkEpsilon, laplaceL1, Fp.toRat, maxValidScale]

/-- C5: for every Gaussian builder with valid epsilon, `Build()` fails with an
invalid-argument error when delta is unset ("Delta has to be set"), NaN
("Delta has to be finite"), or not strictly inside (0,1) -- including 0, 1 and
negative values -- ("Delta has to be in the interval"); the Laplace builder
requires no delta: its `Build()` never reads the delta field (the outcome is
the same for every stored delta), and with a valid epsilon and L1 sensitivity,
a representable scale, and no delta it builds successfully. -/
theorem gaussian_build_delta_validation (st : BuilderState)
    (he : ∃ e : ℚ, st.epsilon = some (Fp.fin e) ∧ 0 < e) :
    (st.delta = none → gaussianBuild st = .error "Delta has to be set") ∧
    (st.delta = some Fp.nan → gaussianBuild st = .error "Delta has to be finite") ∧
    (∀ d : ℚ, st.delta = some (Fp.fin d) → d ≤ 0 ∨ 1 ≤ d →
      gaussianBuild st = .error "Delta has to be in the interval (0,1)") ∧
    (∀ (st' : BuilderState) (dv : Option Fp),
      laplaceBuild { st' with delta := dv } = laplaceBuild st') ∧
    (∀ (e' s' : ℚ), 0 < e' → 0 < s' → s' / e' ≤ maxValidScale →
      laplaceBuild ⟨some (Fp.fin e'), none, none, some (Fp.fin s'), none, none⟩ =
        .ok ⟨e', s'⟩) := by
  obtain ⟨e, hee, hep⟩ := he
  have hce : checkEpsilon st = .ok () := by
    simp [checkEpsilon, hee, not_le.mpr hep]
  refine ⟨?_, ?_, ?_, ?_, ?_⟩
  · intro h
    simp [gaussianBuild, hce, checkDelta, h]
  · intro h
    simp [gaussianBuild, hce, checkDelta, h]
  · intro d hd hcond
    simp [gaussianBuild, hce, checkDelta, hd, hcond]
  · intro st' dv
    rfl
  · intro e' s' he' hs' hsc
    simp [laplaceBuild, checkEpsilon, laplaceL1, Fp.toRat,
      not_le.mpr he', not_le.mpr hs', not_lt.mpr hsc]

/-- Witness for C5 at epsilon 1 and delta 1 (the boundary of the interval). -/
theorem gaussian_build_delta_validation_witness :
    gaussianBuild ⟨some (Fp.fin 1), some (Fp.fin 1), none, none,
        some (Fp.fin 1), none⟩ =
      Except.error "Delta has to be in the interval (0,1)" :=
  (gaussian_build_delta_validation _ ⟨1, rfl, one_pos⟩).2.2.1 1 rfl (Or.inr (le_refl 1))

/-- The L0 sensitivity literal of the subnormal-underflow test, as an exact
rational: 4.94065645841247e-323. -/
def subnormalL0 : ℚ := 494065645841247 / 10 ^ 337

/-- The LInf sensitivity literal of the subnormal-underflow test, as an exact
rational: 5.24566986113514e-317. -/
def subnormalLInf : ℚ := 524566986113514 / 10 ^ 331

/-- The builder state of the test `GaussianBuilderFailsCalculatedL2SensitivityZero`:
epsilon 1, delta 0.2, the two subnormal L0/LInf sensitivities, no direct
sensitivity. -/
def subnormalGaussianState : BuilderState :=
  ⟨some (Fp.fin 1), some (Fp.fin (2 / 10)), some (Fp.fin subnormalL0), none, none,
    some (Fp.fin subnormalLInf)⟩

lemma ratSqrtDown_subnormalL0 : ratSqrtDown subnormalL0 = 3 / 2 ^ 537 := by
  have hfl : ⌊subnormalL0 * 2 ^ (2 * sqrtPrecBits)⌋ = 10 := by
    norm_num [subnormalL0, sqrtPrecBits]
  have h3 : isqrtNat (Int.toNat 10) = 3 := by rfl
  rw [ratSqrtDown, hfl, h3]
  norm_num [sqrtPrecBits]

lemma fpSqrt_subnormalL0 : fpSqrt (Fp.fin subnormalL0) = Fp.fin (3 / 2 ^ 537) := by
  simp only [fpSqrt]
  rw [if_neg (by norm_num [subnormalL0]), ratSqrtDown_subnormalL0]

lemma fpMul_subnormal_flush :
    fpMul (Fp.fin (3 / 2 ^ 537)) (Fp.fin subnormalLInf) = Fp.fin 0 := by
  have hpos : (0 : ℚ) < 3 / 2 ^ 537 * subnormalLInf := by
    rw [subnormalLInf]
    positivity
  have habs : |(3 / 2 ^ 537 : ℚ) * subnormalLInf| < minPositiveDouble := by
    rw [abs_of_pos hpos, subnormalLInf, minPositiveDouble, div_mul_div_comm,
      div_lt_div_iff₀ (by positivity) (by positivity)]
    norm_num
  simp only [fpMul]
  rw [if_pos ⟨hpos.ne', habs⟩]

lemma gaussianL2_subnormal :
    gaussianL2 subnormalGaussianState =
      .error "The calculated L2 sensitivity has to be positive and finite" := by
  simp only [gaussianL2, subnormalGaussianState]
  rw [if_neg (by norm_num [subnormalL0] : ¬ (subnormalL0 ≤ 0)),
    if_neg (by norm_num [subnormalLInf] : ¬ (subnormalLInf ≤ 0)),
    fpSqrt_subnormalL0, fpMul_subnormal_flush]
  simp

lemma gaussianBuild_subnormal :
    gaussianBuild subnormalGaussianState =
      .error "The calculated L2 sensitivity has to be positive and finite" := by
  have hce : checkEpsilon subnormalGaussianState = .ok () := by
    norm_num [checkEpsilon, subnormalGaussianState]
  have hcd : checkDelta subnormalGaussianState = .ok () := by
    norm_num [checkDelta, subnormalGaussianState]
  simp only [gaussianBuild, hce, hcd, gaussianL2_subnormal]

/-- C1: for every Gaussian builder with valid epsilon and delta, no direct L2
sensitivity, and both L0 and LInf set, `Build()` succeeds exactly when L0 and
LInf are both finite and positive and the derived L2 sensitivity
sqrt(L0) x LInf is itself finite and positive; for the subnormal inputs
L0 = 4.94065645841247e-323 and LInf = 5.24566986113514e-317 with epsilon 1 and
delta 0.2, whose derived product underflows to 0, `Build()` returns the
invalid-argument error "The calculated L2 sensitivity has to be positive and
finite". -/
theorem gaussian_build_derived_l2_guard (st : BuilderState) (e d : ℚ) (a b : Fp)
    (he : st.epsilon = some (Fp.fin e)) (hep : 0 < e)
    (hd : st.delta = some (Fp.fin d)) (hd1 : 0 < d) (hd2 : d < 1)
    (hl2 : st.l2Sensitivity = none)
    (ha : st.l0Sensitivity = some a) (hb : st.linfSensitivity = some b) :
    ((∃ p : GaussianParams, gaussianBuild st = .ok p) ↔
      (a.isPosFin ∧ b.isPosFin ∧ (fpMul (fpSqrt a) b).isPosFin)) ∧
    gaussianBuild subnormalGaussianState =
      .error "The calculated L2 sensitivity has to be positive and finite" := by
  refine ⟨?_, gaussianBuild_subnormal⟩
  have hce : checkEpsilon st = .ok () := by
    simp [checkEpsilon, he, not_le.mpr hep]
  have hcd : checkDelta st = .ok () := by
    simp [checkDelta, hd, not_le.mpr hd1, not_le.mpr hd2]
  simp only [gaussianBuild, hce, hcd, gaussianL2, hl2, ha, hb]
  cases a with
  | nan => simp [Fp.isFinite]
  | posInf => simp [Fp.isFinite]
  | negInf => simp [Fp.isFinite]
  | fin qa =>
    cases b with
    | nan => simp [Fp.isFinite]
    | posInf => simp [Fp.isFinite]
    | negInf => simp [Fp.isFinite]
    | fin qb =>
      by_cases hqa : qa ≤ 0
      · simp [hqa, not_lt.mpr hqa]
      · by_cases hqb : qb ≤ 0
        · simp [hqa, hqb, not_lt.mpr hqb, not_le.mp hqa]
        · cases hm : fpMul (fpSqrt (Fp.fin qa)) (Fp.fin qb) with
          | nan => simp [hqa, hqb, hm, not_le.mp hqa, not_le.mp hqb]
          | posInf => simp [hqa, hqb, hm, not_le.mp hqa, not_le.mp hqb]
          | negInf => simp [hqa, hqb, hm, not_le.mp hqa, not_le.mp hqb]
          | fin dd =>
            by_cases hdd : dd ≤ 0
            · simp [hqa, hqb, hm, hdd, not_le.mp hqa, not_le.mp hqb, not_lt.mpr hdd]
            · simp [hqa, hqb, hm, hdd, not_le.mp hqa, not_le.mp hqb, not_le.mp hdd]

/-- Witness for C1: a state with valid epsilon 1, delta 1/2, L0 = 4,
LInf = 1 for the equivalence, and the subnormal state for the error case. -/
theorem gaussian_build_derived_l2_guard_witness :
    ((∃ p : GaussianParams,
        gaussianBuild ⟨some (Fp.fin 1), some (Fp.fin (1 / 2)), some (Fp.fin 4), none,
          none, some (Fp.fin 1)⟩ = .ok p) ↔
      ((Fp.fin 4).isPosFin ∧ (Fp.fin 1).isPosFin ∧
        (fpMul (fpSqrt (Fp.fin 4)) (Fp.fin 1)).isPosFin)) ∧
    gaussianBuild subnormalGaussianState =
      .error "The calculated L2 sensitivity has to be positive and finite" :=
  gaussian_build_derived_l2_guard
    ⟨some (Fp.fin 1), some (Fp.fin (1 / 2)), some (Fp.fin 4), none, none, some (Fp.fin 1)⟩
    1 (1 / 2) (Fp.fin 4) (Fp.fin 1) rfl one_pos rfl (by norm_num) (by norm_num)
    rfl rfl rfl
